import Mathlib

/-!
Verification development for the trading-journal repository.

Shallow embedding conventions:
* JavaScript numbers are modelled as rationals (`ℚ`); the inputs in question
  are decimal currency/price values and the claims never involve
  float-rounding behaviour.
* Optional record fields (`sl?: number` etc.) are modelled as `Option`.
* Datetime values (ISO strings / `Date.getTime()` milliseconds) are modelled
  as integer epoch milliseconds.
* JavaScript truthiness on a numeric option (`trade.sl && ...`) is modelled
  by `truthyNum`: present and nonzero.
-/

namespace Flips

/-- Entry side of a trade (`entry_side: 'Long' | 'Short'` in `src/types`). -/
inductive Side where
  | Long : Side
  | Short : Side
deriving DecidableEq

/-- The fields of a `Trade` record that `calculateUserAnalytics`
(`src/unnamed/part_000`, lines 59-209) reads.  Fields the function never
touches (id, session_id, comments, symbol, ...) are omitted. -/
structure Trade where
  margin : ℚ
  roi : ℚ
  entry_side : Side
  profit_loss : ℚ
  sl : Option ℚ
  open_price : Option ℚ
  open_time : Option ℤ
  close_time : Option ℤ
deriving DecidableEq

/-- The fields of a `TradingSession` that the analytics page reads. -/
structure TradingSession where
  initial_capital : ℚ
  current_capital : ℚ
deriving DecidableEq

/-- `maxDrawdown: { percentage, amount }` in the `UserAnalytics` output. -/
structure MaxDrawdown where
  percentage : ℚ
  amount : ℚ
deriving DecidableEq

/-- `tradeDistribution` in the `UserAnalytics` output. -/
structure TradeDistribution where
  longTrades : ℕ
  shortTrades : ℕ
  longPercentage : ℚ
  shortPercentage : ℚ
deriving DecidableEq

/-- `timeAnalysis` in the `UserAnalytics` output. -/
structure TimeAnalysis where
  avgHoldTime : ℚ
  bestTime : String
deriving DecidableEq

/-- `riskMetrics` in the `UserAnalytics` output. -/
structure RiskMetrics where
  avgRiskPerTrade : ℚ
  maxRisk : ℚ
deriving DecidableEq

/-- `streaks` in the `UserAnalytics` output.  The source stores plain JS
numbers that only ever hold integers (`0`, `±1` increments); we use `ℤ`. -/
structure Streaks where
  bestStreak : ℤ
  worstStreak : ℤ
deriving DecidableEq

/-- The `UserAnalytics` value object built by `calculateUserAnalytics`.
The `sharpeRatio` field of the source is omitted from the embedding: its
value is `avgReturn / Math.sqrt(variance)`, an irrational real, and no
claim in scope mentions it (it feeds nothing else: `riskLevel` depends only
on drawdown percentage and average R-multiple). -/
structure UserAnalytics where
  maxDrawdown : MaxDrawdown
  profitFactor : ℚ
  averageRMultiple : ℚ
  activeCapital : ℚ
  tradeDistribution : TradeDistribution
  timeAnalysis : TimeAnalysis
  riskMetrics : RiskMetrics
  streaks : Streaks
  overallPerformance : ℚ
  successRate : ℚ
  riskLevel : String
deriving DecidableEq

/-- JS truthiness of an optional number: `undefined`, `null` and `0` are
falsy; every other number is truthy. -/
def truthyNum : Option ℚ → Bool
  | none => false
  | some v => v != 0

/-- State of the streak loop in `calculateUserAnalytics`
(`src/unnamed/part_000`, lines 114-130): `currentStreak`, `bestStreak`,
`worstStreak`, `tempWorstStreak`. -/
structure StreakState where
  currentStreak : ℤ
  bestStreak : ℤ
  worstStreak : ℤ
  tempWorstStreak : ℤ
deriving DecidableEq

/-- One iteration of the streak `forEach` loop, verbatim from the source:
win (`profit_loss > 0`): `currentStreak = currentStreak > 0 ?
currentStreak + 1 : 1`, `bestStreak = max(bestStreak, currentStreak)`,
`tempWorstStreak = 0`; otherwise: `currentStreak = currentStreak < 0 ?
currentStreak - 1 : -1`, `tempWorstStreak = tempWorstStreak < 0 ?
tempWorstStreak - 1 : -1`, `worstStreak = min(worstStreak,
tempWorstStreak)`. -/
def streakStep (s : StreakState) (pl : ℚ) : StreakState :=
  if pl > 0 then
    let cs := if s.currentStreak > 0 then s.currentStreak + 1 else 1
    { currentStreak := cs
      bestStreak := max s.bestStreak cs
      worstStreak := s.worstStreak
      tempWorstStreak := 0 }
  else
    let cs := if s.currentStreak < 0 then s.currentStreak - 1 else -1
    let tw := if s.tempWorstStreak < 0 then s.tempWorstStreak - 1 else -1
    { currentStreak := cs
      bestStreak := s.bestStreak
      worstStreak := min s.worstStreak tw
      tempWorstStreak := tw }

/-- State of the max-drawdown loop (`src/unnamed/part_000`, lines 132-146):
`peak`, `maxDrawdownAmount`, `runningTotal`. -/
structure DrawdownState where
  peak : ℚ
  maxDrawdownAmount : ℚ
  runningTotal : ℚ
deriving DecidableEq

/-- One iteration of the max-drawdown `forEach` loop, verbatim from the
source: `runningTotal += profit_loss`; `if (runningTotal > peak) peak =
runningTotal`; `drawdown = peak - runningTotal`; `if (drawdown >
maxDrawdownAmount) maxDrawdownAmount = drawdown`. -/
def ddStep (s : DrawdownState) (pl : ℚ) : DrawdownState :=
  let runningTotal := s.runningTotal + pl
  let peak := if runningTotal > s.peak then runningTotal else s.peak
  let drawdown := peak - runningTotal
  let maxDrawdownAmount :=
    if drawdown > s.maxDrawdownAmount then drawdown else s.maxDrawdownAmount
  { peak := peak, maxDrawdownAmount := maxDrawdownAmount,
    runningTotal := runningTotal }

/-- The R-multiple collection loop (`src/unnamed/part_000`, lines 92-108):
`if (trade.sl && trade.open_price && trade.profit_loss !== undefined)` —
JS truthiness on the two optional numbers (present and nonzero);
`profit_loss` is a required field in the `Trade` type, so the third
conjunct is always true and is not represented — then `risk = open - sl`
for Long / `sl - open` for Short, and `rMultiples.push(profit_loss /
risk)` when `risk > 0`. -/
def rStep (acc : List ℚ) (t : Trade) : List ℚ :=
  if truthyNum t.sl && truthyNum t.open_price then
    let slv := t.sl.getD 0
    let opv := t.open_price.getD 0
    let risk := if t.entry_side = Side.Long then opv - slv else slv - opv
    if risk > 0 then acc ++ [t.profit_loss / risk] else acc
  else acc

/-- The `rMultiples` array built by the `forEach` loop: one `rStep` per
trade in stored order. -/
def rMultiplesOf (trades : List Trade) : List ℚ := trades.foldl rStep []

/-- `Math.max(...trades.map(t => t.margin))`.  The function is only invoked
on a non-empty list (the empty-trades case returns early); the `[]` value
here is an arbitrary placeholder for JS `-Infinity`. -/
def maxOfMargins : List Trade → ℚ
  | [] => 0
  | t :: ts => ts.foldl (fun m x => max m x.margin) t.margin

/-- `avgHoldTime.toFixed(1)`: decimal rendering with one fractional digit.
Rounding is modelled as floor(10x + 1/2) (round half up); the source uses
the JS float `toFixed`, whose tie behaviour on binary floats differs on
some inputs, but no claim depends on this string. -/
def ratToFixed1 (q : ℚ) : String :=
  let n : ℤ := ⌊q * 10 + 1 / 2⌋
  toString (n / 10) ++ "." ++ toString ((n % 10).natAbs)

/-- `calculateUserAnalytics(sessions, trades)` from
`src/unnamed/part_000`, lines 59-209, embedded step by step.  The
`sharpeRatio` computation (lines 150-156) is omitted — see
`UserAnalytics`.  The `avgHoldTime` filter `trade.open_time &&
trade.close_time` tests truthiness of ISO strings (falsy only when
absent/empty), modelled as `Option.isSome` on the epoch-millisecond
fields. -/
def calculateUserAnalytics (sessions : List TradingSession)
    (trades : List Trade) : UserAnalytics :=
  if trades.length = 0 then
    { maxDrawdown := { percentage := 0, amount := 0 }
      profitFactor := 0
      averageRMultiple := 0
      activeCapital := sessions.foldl (fun sum s => sum + s.current_capital) 0
      tradeDistribution := { longTrades := 0, shortTrades := 0,
                             longPercentage := 0, shortPercentage := 0 }
      timeAnalysis := { avgHoldTime := 0, bestTime := "N/A" }
      riskMetrics := { avgRiskPerTrade := 0, maxRisk := 0 }
      streaks := { bestStreak := 0, worstStreak := 0 }
      overallPerformance := 0
      successRate := 0
      riskLevel := "Low" }
  else
    let totalProfit := trades.foldl (fun sum t => sum + t.profit_loss) 0
    let winningTrades := trades.filter (fun t => t.profit_loss > 0)
    let losingTrades := trades.filter (fun t => t.profit_loss < 0)
    let successRate := ((winningTrades.length : ℚ) / (trades.length : ℚ)) * 100
    let longTrades := (trades.filter (fun t => t.entry_side = Side.Long)).length
    let shortTrades := (trades.filter (fun t => t.entry_side = Side.Short)).length
    let totalWins : ℚ := winningTrades.foldl (fun sum t => sum + t.profit_loss) 0
    let totalLosses : ℚ :=
      |losingTrades.foldl (fun sum t => sum + t.profit_loss) 0|
    let profitFactor : ℚ :=
      if totalLosses > 0 then totalWins / totalLosses
      else if totalWins > 0 then 999 else 0
    let rMultiples := rMultiplesOf trades
    let averageRMultiple :=
      if rMultiples.length > 0 then
        rMultiples.foldl (fun sum r => sum + r) 0 / (rMultiples.length : ℚ)
      else 0
    let streakFinal := trades.foldl (fun s t => streakStep s t.profit_loss)
      { currentStreak := 0, bestStreak := 0, worstStreak := 0,
        tempWorstStreak := 0 }
    let ddFinal := trades.foldl (fun s t => ddStep s t.profit_loss)
      { peak := 0, maxDrawdownAmount := 0, runningTotal := 0 }
    let maxDrawdownPercentage :=
      if ddFinal.peak > 0 then (ddFinal.maxDrawdownAmount / ddFinal.peak) * 100
      else 0
    let riskLevel :=
      if maxDrawdownPercentage > 20 ∨ averageRMultiple < -1 then "High"
      else if maxDrawdownPercentage > 10 ∨ averageRMultiple < 0 then "Moderate"
      else "Low"
    let tradesWithTime :=
      trades.filter (fun t => t.open_time.isSome && t.close_time.isSome)
    let avgHoldTime :=
      if tradesWithTime.length > 0 then
        ((tradesWithTime.foldl
            (fun sum t =>
              sum + ((t.close_time.getD 0 - t.open_time.getD 0 : ℤ) : ℚ))
            0) / (tradesWithTime.length : ℚ)) / 3600000
      else 0
    { maxDrawdown := { percentage := maxDrawdownPercentage,
                       amount := ddFinal.maxDrawdownAmount }
      profitFactor := profitFactor
      averageRMultiple := averageRMultiple
      activeCapital := sessions.foldl (fun sum s => sum + s.current_capital) 0
      tradeDistribution :=
        { longTrades := longTrades
          shortTrades := shortTrades
          longPercentage := ((longTrades : ℚ) / (trades.length : ℚ)) * 100
          shortPercentage := ((shortTrades : ℚ) / (trades.length : ℚ)) * 100 }
      timeAnalysis :=
        { avgHoldTime := avgHoldTime
          bestTime :=
            if avgHoldTime > 0 then ratToFixed1 avgHoldTime ++ " hours"
            else "N/A" }
      riskMetrics :=
        { avgRiskPerTrade :=
            trades.foldl (fun sum t => sum + t.margin) 0 / (trades.length : ℚ)
          maxRisk := maxOfMargins trades }
      streaks := { bestStreak := streakFinal.bestStreak,
                   worstStreak := |streakFinal.worstStreak| }
      overallPerformance := totalProfit
      successRate := successRate
      riskLevel := riskLevel }

/-! ### Spec-level reformulation of the max-drawdown walk (claim C1)

The claim describes the walk in terms of the list of running totals, the
running peak sequence and the per-step drawdowns; these are defined here
independently of the single-pass fold used by the source, and proved equal
to it. -/

/-- The running cumulative sums of a profit/loss sequence, starting from
`acc`: element `i` is `acc + p₀ + ⋯ + pᵢ`. -/
def cumSums (acc : ℚ) : List ℚ → List ℚ
  | [] => []
  | p :: ps => (acc + p) :: cumSums (acc + p) ps

/-- The running maxima of a sequence, seeded with `m`: element `i` is
`max m (max x₀ ⋯ xᵢ)`. -/
def runMax (m : ℚ) : List ℚ → List ℚ
  | [] => []
  | x :: xs => max m x :: runMax (max m x) xs

/-- Running totals of the profit/loss sequence (cumulative sums from 0). -/
def specTotals (pls : List ℚ) : List ℚ := cumSums 0 pls

/-- The running peak at each step: the maximum of 0 and all running totals
so far (the source's `peak` starts at 0 and is monotone). -/
def specPeaks (pls : List ℚ) : List ℚ := runMax 0 (specTotals pls)

/-- Per-step drawdowns: `peak − runningTotal` at each step. -/
def specDrawdowns (pls : List ℚ) : List ℚ :=
  List.zipWith (fun pk t => pk - t) (specPeaks pls) (specTotals pls)

/-- The maximum drawdown amount: largest per-step drawdown seen (0 if the
list is empty, matching the source's initialisation). -/
def specMaxDrawdownAmount (pls : List ℚ) : ℚ := (specDrawdowns pls).foldl max 0

/-- The final value of the running peak: maximum of 0 and all running
totals. -/
def specFinalPeak (pls : List ℚ) : ℚ := (specTotals pls).foldl max 0

/-- A trade carrying only a profit/loss value, used for the concrete
examples of the claims about the analytics loops. -/
def mkTrade (pl : ℚ) : Trade :=
  { margin := 10, roi := 0, entry_side := Side.Long, profit_loss := pl,
    sl := none, open_price := none, open_time := none, close_time := none }

/-- The JS pattern `cond > base ? cond : base` is `max base cond`. -/
lemma if_gt_eq_max (a b : ℚ) : (if a > b then a else b) = max b a := by
  rcases le_or_lt a b with h | h
  · rw [if_neg (not_lt.mpr h), max_eq_left h]
  · rw [if_pos h, max_eq_right h.le]

/-- `ddStep` in closed form, with the two conditionals expressed as maxima. -/
lemma ddStep_eq (p m t x : ℚ) :
    ddStep { peak := p, maxDrawdownAmount := m, runningTotal := t } x =
      { peak := max p (t + x),
        maxDrawdownAmount := max m (max p (t + x) - (t + x)),
        runningTotal := t + x } := by
  simp only [ddStep]
  rw [if_gt_eq_max, if_gt_eq_max]

/-- Invariant of the source's drawdown fold: from an arbitrary start state
it computes the running-max of cumulative sums, the running-max of the
per-step drawdowns, and the total sum. -/
lemma ddFold_eq (pls : List ℚ) : ∀ p m t : ℚ,
    List.foldl ddStep { peak := p, maxDrawdownAmount := m, runningTotal := t }
        pls =
      { peak := (cumSums t pls).foldl max p,
        maxDrawdownAmount :=
          (List.zipWith (fun pk tt => pk - tt) (runMax p (cumSums t pls))
              (cumSums t pls)).foldl max m,
        runningTotal := t + pls.sum } := by
  induction pls with
  | nil => intro p m t; simp [cumSums]
  | cons x ps ih =>
    intro p m t
    rw [List.foldl_cons, ddStep_eq, ih]
    simp [cumSums, runMax, add_assoc]

/-- The seed of `foldl max` is a lower bound of the result. -/
lemma le_foldl_max (l : List ℚ) : ∀ a : ℚ, a ≤ l.foldl max a := by
  induction l with
  | nil => intro a; simp
  | cons x xs ih =>
    intro a
    rw [List.foldl_cons]
    exact le_trans (le_max_left a x) (ih (max a x))

/-- The drawdown fold of `calculateUserAnalytics` applied to a trade list,
 related to the spec-level lists. -/
lemma ddFinal_of_trades (trades : List Trade) :
    trades.foldl (fun s t => ddStep s t.profit_loss)
        { peak := 0, maxDrawdownAmount := 0, runningTotal := 0 } =
      { peak := specFinalPeak (trades.map (·.profit_loss)),
        maxDrawdownAmount :=
          specMaxDrawdownAmount (trades.map (·.profit_loss)),
        runningTotal := (trades.map (·.profit_loss)).sum } := by
  have h := ddFold_eq (trades.map (·.profit_loss)) 0 0 0
  rw [List.foldl_map] at h
  rw [h]
  simp [specFinalPeak, specMaxDrawdownAmount, specDrawdowns, specPeaks,
    specTotals]

/-- C1: `maxDrawdown` walks the trades in stored order keeping a running
cumulative sum and a running peak starting at 0; the reported amount is the
maximum per-step drawdown `peak − runningTotal`, and the percentage is
`amount / peak × 100`, or 0 when the peak is 0; on the profit/loss sequence
`[+100, −150, +20]` the amount is 150 and the percentage is 150. -/
theorem C1_maxDrawdown (sessions : List TradingSession)
    (trades : List Trade) :
    (calculateUserAnalytics sessions trades).maxDrawdown.amount =
        specMaxDrawdownAmount (trades.map (·.profit_loss))
    ∧ (specFinalPeak (trades.map (·.profit_loss)) = 0 →
        (calculateUserAnalytics sessions trades).maxDrawdown.percentage = 0)
    ∧ (specFinalPeak (trades.map (·.profit_loss)) ≠ 0 →
        (calculateUserAnalytics sessions trades).maxDrawdown.percentage =
          specMaxDrawdownAmount (trades.map (·.profit_loss)) /
            specFinalPeak (trades.map (·.profit_loss)) * 100)
    ∧ (calculateUserAnalytics []
        [mkTrade 100, mkTrade (-150), mkTrade 20]).maxDrawdown.amount = 150
    ∧ (calculateUserAnalytics []
        [mkTrade 100, mkTrade (-150), mkTrade 20]).maxDrawdown.percentage
        = 150 := by
  have hpk : (0 : ℚ) ≤ specFinalPeak (trades.map (·.profit_loss)) :=
    le_foldl_max _ 0
  refine ⟨?_, ?_, ?_, ?_, ?_⟩
  · by_cases hE : trades.length = 0
    · rw [List.length_eq_zero] at hE
      subst hE
      simp [calculateUserAnalytics, specMaxDrawdownAmount, specDrawdowns,
        specPeaks, specTotals, cumSums]
    · simp only [calculateUserAnalytics, if_neg hE]
      rw [ddFinal_of_trades]
  · intro h0
    by_cases hE : trades.length = 0
    · rw [List.length_eq_zero] at hE
      subst hE
      simp [calculateUserAnalytics]
    · simp only [calculateUserAnalytics, if_neg hE]
      rw [ddFinal_of_trades]
      simp [h0]
  · intro hne
    have hgt : 0 < specFinalPeak (trades.map (·.profit_loss)) :=
      lt_of_le_of_ne hpk (Ne.symm hne)
    by_cases hE : trades.length = 0
    · rw [List.length_eq_zero] at hE
      subst hE
      exact absurd rfl hne
    · simp only [calculateUserAnalytics, if_neg hE]
      rw [ddFinal_of_trades]
      simp [hgt]
  · norm_num [calculateUserAnalytics, mkTrade, ddStep, List.foldl]
  · norm_num [calculateUserAnalytics, mkTrade, ddStep, List.foldl]

/-- C1 witness: on a single all-losing trade the cumulative return never
goes positive, the final peak is 0, and the reported percentage is 0. -/
theorem C1_maxDrawdown_witness :
    (calculateUserAnalytics [] [mkTrade (-5)]).maxDrawdown.percentage = 0 :=
  (C1_maxDrawdown [] [mkTrade (-5)]).2.1
    (by norm_num [specFinalPeak, specTotals, cumSums, mkTrade, List.foldl])

/-! ### Streaks (claim C2)

The claim asserts that on a non-winning trade "the positive counter is left
unmodified by this branch".  In the source there is a single signed counter
`currentStreak` — the one the claim's winning branch "extends or restarts
at 1" — and the non-winning branch overwrites it
(`currentStreak = currentStreak < 0 ? currentStreak - 1 : -1`), so this
sub-claim is false; the rest of the claim holds. -/

/-- C2 counterexample: it is not true that a non-winning trade leaves the
positive (signed) streak counter unmodified — after one win the counter is
1, and a losing trade rewrites it to −1. -/
theorem C2_streaks_counterexample :
    ¬ (∀ (s : StreakState) (pl : ℚ), ¬ pl > 0 →
        (streakStep s pl).currentStreak = s.currentStreak) := by
  intro h
  have hc := h { currentStreak := 1, bestStreak := 1, worstStreak := 0,
                 tempWorstStreak := 0 } (-5) (by norm_num)
  norm_num [streakStep] at hc

/-- C2 (amended): walking trades in stored order, a winning trade extends
or restarts the signed counter at 1, updates `bestStreak` to its maximum
with the new counter, resets the negative tracker `tempWorstStreak` to 0
and leaves `worstStreak` alone; a non-winning trade extends or restarts the
negative tracker at −1, updates `worstStreak` to its minimum with the new
tracker, overwrites the signed counter to the same extend-or-restart-at-−1
value (so the positive streak is reset, not left unmodified), and leaves
`bestStreak` alone; `worstStreak` is reported as an absolute value, and
`[win, win, loss, win]` yields `bestStreak = 2`, `worstStreak = 1`. -/
theorem C2_streaks_amended (s : StreakState) (pl : ℚ) :
    (pl > 0 →
      (streakStep s pl).currentStreak =
          (if s.currentStreak > 0 then s.currentStreak + 1 else 1)
        ∧ (streakStep s pl).bestStreak =
            max s.bestStreak
              (if s.currentStreak > 0 then s.currentStreak + 1 else 1)
        ∧ (streakStep s pl).tempWorstStreak = 0
        ∧ (streakStep s pl).worstStreak = s.worstStreak)
    ∧ (¬ pl > 0 →
      (streakStep s pl).tempWorstStreak =
          (if s.tempWorstStreak < 0 then s.tempWorstStreak - 1 else -1)
        ∧ (streakStep s pl).worstStreak =
            min s.worstStreak
              (if s.tempWorstStreak < 0 then s.tempWorstStreak - 1 else -1)
        ∧ (streakStep s pl).currentStreak =
            (if s.currentStreak < 0 then s.currentStreak - 1 else -1)
        ∧ (streakStep s pl).bestStreak = s.bestStreak)
    ∧ (calculateUserAnalytics []
        [mkTrade 5, mkTrade 5, mkTrade (-5), mkTrade 5]).streaks =
        { bestStreak := 2, worstStreak := 1 } := by
  refine ⟨fun h => ?_, fun h => ?_, ?_⟩
  · simp [streakStep, h]
  · simp [streakStep, h]
  · norm_num [calculateUserAnalytics, streakStep, mkTrade, List.foldl,
      Streaks.mk.injEq]

/-- C2 witness: a winning trade after a two-win streak pushes
`bestStreak` to 3. -/
theorem C2_streaks_witness :
    (streakStep ⟨2, 2, 0, 0⟩ 7).bestStreak = 3 := by
  have h := (C2_streaks_amended ⟨2, 2, 0, 0⟩ 7).1 (by norm_num)
  rw [h.2.1]
  decide

/-! ### Average R-multiple (claim C3)

The source guards the R-multiple computation with JS truthiness
(`trade.sl && trade.open_price`), so a trade whose stop-loss or open price
is present but equal to 0 is excluded, while the claim admits every trade
with both fields set.  The two disagree on a Long trade with
`sl = 0, open_price = 1`. -/

/-- R-multiples under the claim's wording: a trade qualifies when `sl` and
`open_price` are both set (present, regardless of value) and the computed
risk is strictly positive. -/
def claimRMultiples (trades : List Trade) : List ℚ :=
  trades.filterMap (fun t =>
    match t.sl, t.open_price with
    | some slv, some opv =>
      let risk := if t.entry_side = Side.Long then opv - slv else slv - opv
      if risk > 0 then some (t.profit_loss / risk) else none
    | _, _ => none)

/-- Average R-multiple under the claim's wording: arithmetic mean of the
qualifying list, 0 when it is empty. -/
def claimAverageRMultiple (trades : List Trade) : ℚ :=
  if claimRMultiples trades = [] then 0
  else (claimRMultiples trades).sum / ((claimRMultiples trades).length : ℚ)

/-- The per-trade qualifying R-multiple as the source computes it: both
optional fields truthy (present and nonzero) and risk strictly positive. -/
def rOpt (t : Trade) : Option ℚ :=
  if truthyNum t.sl && truthyNum t.open_price then
    let slv := t.sl.getD 0
    let opv := t.open_price.getD 0
    let risk := if t.entry_side = Side.Long then opv - slv else slv - opv
    if risk > 0 then some (t.profit_loss / risk) else none
  else none

/-- R-multiples with the truthiness precondition, stated as a `filterMap`
(the amended claim's formulation). -/
def amendedRMultiples (trades : List Trade) : List ℚ := trades.filterMap rOpt

/-- One `rStep` appends exactly the optional value `rOpt` produces. -/
lemma rStep_eq (acc : List ℚ) (t : Trade) :
    rStep acc t = acc ++ (rOpt t).toList := by
  simp only [rStep, rOpt]
  by_cases h1 : (truthyNum t.sl && truthyNum t.open_price) = true
  · rw [if_pos h1, if_pos h1]
    by_cases hrisk : (if t.entry_side = Side.Long
        then t.open_price.getD 0 - t.sl.getD 0
        else t.sl.getD 0 - t.open_price.getD 0) > 0
    · rw [if_pos hrisk, if_pos hrisk]
      simp
    · rw [if_neg hrisk, if_neg hrisk]
      simp
  · rw [if_neg h1, if_neg h1]
    simp

/-- The source's accumulate-by-`forEach` list equals the `filterMap`
formulation, for every starting accumulator. -/
lemma foldl_rStep (trades : List Trade) : ∀ acc : List ℚ,
    trades.foldl rStep acc = acc ++ trades.filterMap rOpt := by
  induction trades with
  | nil => intro acc; simp
  | cons t ts ih =>
    intro acc
    rw [List.foldl_cons, ih, rStep_eq, List.filterMap_cons]
    cases h : rOpt t <;> simp [h]

/-- `rMultiplesOf` agrees with the truthiness-based `filterMap`. -/
lemma rMultiplesOf_eq (trades : List Trade) :
    rMultiplesOf trades = amendedRMultiples trades := by
  rw [rMultiplesOf, foldl_rStep, amendedRMultiples, List.nil_append]

/-- Folding `fun s r => s + r` over rationals computes the sum. -/
lemma foldl_add (l : List ℚ) : ∀ a : ℚ,
    l.foldl (fun s r => s + r) a = a + l.sum := by
  induction l with
  | nil => intro a; simp
  | cons x xs ih => intro a; rw [List.foldl_cons, ih]; rw [List.sum_cons,
      add_assoc]

/-- Folding `fun s t => s + f t` over a list computes the sum of the
mapped list. -/
lemma foldl_add_map {α : Type} (f : α → ℚ) (l : List α) : ∀ a : ℚ,
    l.foldl (fun s t => s + f t) a = a + (l.map f).sum := by
  induction l with
  | nil => intro a; simp
  | cons x xs ih =>
    intro a
    rw [List.foldl_cons, ih, List.map_cons, List.sum_cons, add_assoc]

/-- A Long trade whose stop-loss is present but stored as 0: the claim
qualifies it (risk `1 − 0 = 1 > 0`), the source's truthiness test drops
it. -/
def tradeSLZero : Trade :=
  { margin := 1, roi := 0, entry_side := Side.Long, profit_loss := 5,
    sl := some 0, open_price := some 1, open_time := none,
    close_time := none }

/-- C3 counterexample: on the single trade with `sl = 0`, `open_price = 1`,
`profit_loss = 5`, the source reports `averageRMultiple = 0` while the
claim's formula gives 5. -/
theorem C3_averageRMultiple_counterexample :
    (calculateUserAnalytics [] [tradeSLZero]).averageRMultiple ≠
      claimAverageRMultiple [tradeSLZero] := by
  norm_num [calculateUserAnalytics, claimAverageRMultiple, claimRMultiples,
    rMultiplesOf, rStep, truthyNum, tradeSLZero, List.filterMap, List.foldl]

/-- C3 (amended): `averageRMultiple` is the arithmetic mean of
`profit_loss / risk` over exactly those trades whose stop-loss and open
price are both present *and nonzero* (JS truthiness) and whose computed
risk (`open − sl` for Long, `sl − open` for Short) is strictly positive;
trades failing a precondition contribute neither a value nor a count, and
the result is 0 when no trade qualifies.  In particular a qualifying trade
with R-multiple 2 together with the claim's Long trade at
`open = 1.1000, sl = 1.1010` (risk −0.001) averages to 2, the excluded
trade contributing nothing. -/
theorem C3_averageRMultiple_amended (sessions : List TradingSession)
    (trades : List Trade) :
    (calculateUserAnalytics sessions trades).averageRMultiple =
        (if amendedRMultiples trades = [] then 0
         else (amendedRMultiples trades).sum /
            ((amendedRMultiples trades).length : ℚ))
    ∧ (calculateUserAnalytics []
        [{ margin := 1, roi := 0, entry_side := Side.Long, profit_loss := 2,
           sl := some 1, open_price := some 2, open_time := none,
           close_time := none },
         { margin := 1, roi := 0, entry_side := Side.Long, profit_loss := 7,
           sl := some (1101 / 1000), open_price := some (11 / 10),
           open_time := none,
           close_time := none }]).averageRMultiple = 2 := by
  constructor
  · by_cases hE : trades.length = 0
    · rw [List.length_eq_zero] at hE
      subst hE
      simp [calculateUserAnalytics, amendedRMultiples]
    · simp only [calculateUserAnalytics, if_neg hE]
      rw [rMultiplesOf_eq]
      by_cases hR : amendedRMultiples trades = []
      · simp [hR]
      · have hlen : 0 < (amendedRMultiples trades).length :=
          List.length_pos.mpr hR
        rw [if_pos hlen, if_neg hR, foldl_add, zero_add]
  · norm_num [calculateUserAnalytics, rMultiplesOf, rStep, truthyNum,
      List.foldl]

/-! ### Profit factor (claim C4) -/

/-- Gross winning amount: sum of `profit_loss` over winning trades. -/
def specTotalWins (trades : List Trade) : ℚ :=
  ((trades.filter (fun t => t.profit_loss > 0)).map (·.profit_loss)).sum

/-- Gross losing amount: absolute value of the sum of `profit_loss` over
losing trades. -/
def specTotalLosses (trades : List Trade) : ℚ :=
  |((trades.filter (fun t => t.profit_loss < 0)).map (·.profit_loss)).sum|

/-- C4: `profitFactor` is gross wins over gross losses, with sentinel 999
when there are wins but no losses and 0 when there are neither; in
particular `[+100, +50]` gives 999 and `[−100]` gives 0. -/
theorem C4_profitFactor (sessions : List TradingSession)
    (trades : List Trade) :
    ((specTotalLosses trades = 0 ∧ specTotalWins trades > 0) →
        (calculateUserAnalytics sessions trades).profitFactor = 999)
    ∧ ((specTotalLosses trades = 0 ∧ specTotalWins trades = 0) →
        (calculateUserAnalytics sessions trades).profitFactor = 0)
    ∧ (specTotalLosses trades ≠ 0 →
        (calculateUserAnalytics sessions trades).profitFactor =
          specTotalWins trades / specTotalLosses trades)
    ∧ (calculateUserAnalytics []
        [mkTrade 100, mkTrade 50]).profitFactor = 999
    ∧ (calculateUserAnalytics [] [mkTrade (-100)]).profitFactor = 0 := by
  have hW :
      ∀ a : ℚ, (trades.filter (fun t => t.profit_loss > 0)).foldl
          (fun sum t => sum + t.profit_loss) a =
        a + ((trades.filter (fun t => t.profit_loss > 0)).map
          (·.profit_loss)).sum :=
    foldl_add_map (fun t : Trade => t.profit_loss) _
  have hL :
      ∀ a : ℚ, (trades.filter (fun t => t.profit_loss < 0)).foldl
          (fun sum t => sum + t.profit_loss) a =
        a + ((trades.filter (fun t => t.profit_loss < 0)).map
          (·.profit_loss)).sum :=
    foldl_add_map (fun t : Trade => t.profit_loss) _
  refine ⟨?_, ?_, ?_, ?_, ?_⟩
  · rintro ⟨h0, hpos⟩
    by_cases hE : trades.length = 0
    · rw [List.length_eq_zero] at hE
      subst hE
      simp [specTotalWins] at hpos
    · simp only [calculateUserAnalytics, if_neg hE]
      rw [hW 0, hL 0, zero_add, zero_add]
      rw [show |((trades.filter (fun t => t.profit_loss < 0)).map
          (·.profit_loss)).sum| = specTotalLosses trades from rfl, h0]
      rw [show ((trades.filter (fun t => t.profit_loss > 0)).map
          (·.profit_loss)).sum = specTotalWins trades from rfl]
      rw [if_neg (lt_irrefl 0), if_pos hpos]
  · rintro ⟨h0, hz⟩
    by_cases hE : trades.length = 0
    · rw [List.length_eq_zero] at hE
      subst hE
      simp [calculateUserAnalytics]
    · simp only [calculateUserAnalytics, if_neg hE]
      rw [hW 0, hL 0, zero_add, zero_add]
      rw [show |((trades.filter (fun t => t.profit_loss < 0)).map
          (·.profit_loss)).sum| = specTotalLosses trades from rfl, h0]
      rw [show ((trades.filter (fun t => t.profit_loss > 0)).map
          (·.profit_loss)).sum = specTotalWins trades from rfl, hz]
      rw [if_neg (lt_irrefl 0), if_neg (lt_irrefl 0)]
  · intro hne
    have hpos : 0 < specTotalLosses trades :=
      lt_of_le_of_ne (abs_nonneg _) (Ne.symm hne)
    by_cases hE : trades.length = 0
    · rw [List.length_eq_zero] at hE
      subst hE
      exact absurd (by simp [specTotalLosses]) hne
    · simp only [calculateUserAnalytics, if_neg hE]
      rw [hW 0, hL 0, zero_add, zero_add]
      rw [show |((trades.filter (fun t => t.profit_loss < 0)).map
          (·.profit_loss)).sum| = specTotalLosses trades from rfl]
      rw [show ((trades.filter (fun t => t.profit_loss > 0)).map
          (·.profit_loss)).sum = specTotalWins trades from rfl]
      rw [if_pos hpos]
  · norm_num [calculateUserAnalytics, mkTrade, List.filter, List.foldl]
  · norm_num [calculateUserAnalytics, mkTrade, List.filter, List.foldl]

/-- C4 witness: with one 100 loss and one 50 win the factor is the
wins/losses quotient. -/
theorem C4_profitFactor_witness :
    (calculateUserAnalytics [] [mkTrade (-100), mkTrade 50]).profitFactor =
      specTotalWins [mkTrade (-100), mkTrade 50] /
        specTotalLosses [mkTrade (-100), mkTrade 50] :=
  (C4_profitFactor [] [mkTrade (-100), mkTrade 50]).2.2.1
    (by norm_num [specTotalLosses, mkTrade, List.filter])

/-! ### Success rate (claim C5) -/

/-- C5: for a non-empty trade list, `successRate` is the number of strictly
winning trades over the total count, times 100 — zero-P/L trades count in
the denominator only; `[100, −50, 0, 30]` gives 50. -/
theorem C5_successRate (sessions : List TradingSession)
    (trades : List Trade) :
    (trades ≠ [] →
      (calculateUserAnalytics sessions trades).successRate =
        ((trades.filter (fun t => t.profit_loss > 0)).length : ℚ) /
          (trades.length : ℚ) * 100)
    ∧ (calculateUserAnalytics []
        [mkTrade 100, mkTrade (-50), mkTrade 0, mkTrade 30]).successRate
        = 50 := by
  constructor
  · intro hne
    have hE : ¬ trades.length = 0 := by
      simpa [List.length_eq_zero] using hne
    simp only [calculateUserAnalytics, if_neg hE]
  · norm_num [calculateUserAnalytics, mkTrade, List.filter]

/-- C5 witness: a single winning trade yields a 100% success rate. -/
theorem C5_successRate_witness :
    (calculateUserAnalytics [] [mkTrade 1]).successRate =
      ((([mkTrade 1].filter (fun t => t.profit_loss > 0)).length : ℚ) /
        (([mkTrade 1] : List Trade).length : ℚ)) * 100 :=
  (C5_successRate [] [mkTrade 1]).1 (by simp)

/-! ### Empty trade list (claim C6) -/

/-- C6: on an empty trade list (any session list) the engine returns the
all-zero/neutral record — `successRate = 0`, `profitFactor = 0`,
`averageRMultiple = 0`, zero streaks, `riskLevel = "Low"`,
`maxDrawdown = 0/0` — with `activeCapital` still the sum of the sessions'
`current_capital`.  The embedding is a total function, so the "never
throws" part of the claim holds by construction. -/
theorem C6_emptyTrades (sessions : List TradingSession) :
    (calculateUserAnalytics sessions []).successRate = 0
    ∧ (calculateUserAnalytics sessions []).profitFactor = 0
    ∧ (calculateUserAnalytics sessions []).averageRMultiple = 0
    ∧ (calculateUserAnalytics sessions []).streaks =
        { bestStreak := 0, worstStreak := 0 }
    ∧ (calculateUserAnalytics sessions []).riskLevel = "Low"
    ∧ (calculateUserAnalytics sessions []).maxDrawdown =
        { percentage := 0, amount := 0 }
    ∧ (calculateUserAnalytics sessions []).activeCapital =
        (sessions.map (·.current_capital)).sum := by
  refine ⟨rfl, rfl, rfl, rfl, rfl, rfl, ?_⟩
  show sessions.foldl (fun sum s => sum + s.current_capital) 0 = _
  rw [foldl_add_map (·.current_capital) sessions 0, zero_add]

/-! ### Search-augmentation decision (claim C7)

From `src/supabase/functions/ai-chat/index.ts`: the server skips the web
search when the trimmed message matches one of the `skipSearchPatterns`
regexes, and otherwise searches only when `needsRealTimeSearch(message)`
fires (line 232: `if (!shouldSkipSearch && needsRealTimeSearch(message))`).
String machinery is defined on character lists so that every function
kernel-evaluates; JS `toLowerCase`/`trim`/`\s`/`\w` are modelled on their
ASCII ranges (every pattern in the source is ASCII). -/

/-- An apostrophe, as a one-character string. -/
def apos : String := String.mk [Char.ofNat 39]

/-- ASCII lower-casing of one character (JS `toLowerCase` restricted to
ASCII, which covers every pattern in the source). -/
def lowerChar (c : Char) : Char :=
  if c.isUpper then Char.ofNat (c.toNat + 32) else c

/-- Lower-case a character list. -/
def toLowerChars (l : List Char) : List Char := l.map lowerChar

/-- Whitespace for JS `trim` / regex `\s`, ASCII range. -/
def isWSChar (c : Char) : Bool :=
  c == ' ' || c == '\t' || c == '\n' || c == '\r'

/-- JS `String.trim`: drop whitespace from both ends. -/
def trimCharsWS (l : List Char) : List Char :=
  ((l.dropWhile isWSChar).reverse.dropWhile isWSChar).reverse

/-- The first list is a prefix of the second. -/
def isPrefixChars : List Char → List Char → Bool
  | [], _ => true
  | _ :: _, [] => false
  | a :: as, b :: bs => a == b && isPrefixChars as bs

/-- The needle occurs contiguously inside the haystack
(JS `String.includes`). -/
def containsChars (needle : List Char) : List Char → Bool
  | [] => isPrefixChars needle []
  | c :: t => isPrefixChars needle (c :: t) || containsChars needle t

/-- JS regex word character (`\w` = `[A-Za-z0-9_]`). -/
def isWordChar (c : Char) : Bool := c.isAlpha || c.isDigit || c == '_'

/-- A `\b` boundary holds after a match ending in a word character when the
rest is empty or starts with a non-word character. -/
def boundaryAfter : List Char → Bool
  | [] => true
  | c :: _ => !isWordChar c

/-- The word matches at the head of the haystack with a trailing
boundary. -/
def wordAtHere (w hs : List Char) : Bool :=
  isPrefixChars w hs && boundaryAfter (hs.drop w.length)

/-- Scan the haystack for a `\b w \b` occurrence; `atB` records whether the
current position sits at a word boundary (start of string or after a
non-word character).  Every alternative in the source's regexes starts and
ends with a word character, for which this is exactly `\b`. -/
def containsWordAux (w : List Char) : List Char → Bool → Bool
  | [], atB => atB && wordAtHere w []
  | c :: t, atB => (atB && wordAtHere w (c :: t)) || containsWordAux w t (!isWordChar c)

/-- Whole-word containment: models `/\b(…)\b/` applied to one
alternative. -/
def containsWord (hay : List Char) (w : String) : Bool :=
  containsWordAux w.toList hay true

/-- `alwaysSearchKeywords` from `needsRealTimeSearch`, verbatim. -/
def alwaysSearchKeywords : List String :=
  ["price", "market", "trading", "stock", "crypto", "bitcoin", "ethereum",
   "forex", "usd", "eur", "gbp", "jpy",
   "bull", "bear", "rally", "crash", "pump", "dump", "volatility", "volume",
   "chart", "analysis",
   "fed", "federal reserve", "interest rate", "inflation", "gdp",
   "unemployment", "cpi", "ppi",
   "gold", "silver", "oil", "gas", "commodity", "bond", "yield", "treasury",
   "war", "conflict", "election", "president", "government", "policy",
   "sanction", "trade war",
   "ukraine", "russia", "china", "usa", "europe", "middle east", "israel",
   "palestine",
   "nato", "un", "united nations", "g7", "g20", "summit", "meeting",
   "agreement", "treaty",
   "today", "now", "current", "latest", "recent", "breaking", "news",
   "update", "live",
   "right now", "this moment", "currently", "just happened", "happening",
   "weather", "temperature", "rain", "storm", "hurricane", "earthquake",
   "disaster",
   "sports", "match", "game", "won", "lost", "score", "championship",
   "tournament",
   "apple", "microsoft", "google", "amazon", "tesla", "nvidia", "meta",
   "netflix",
   "earnings", "revenue", "profit", "loss", "ipo", "merger", "acquisition",
   "dow jones", "nasdaq", "s&p 500", "ftse", "nikkei", "hang seng", "dax",
   "binance", "coinbase", "ftx", "kraken", "bybit", "okx"]

/-- `questionPatterns` from `needsRealTimeSearch`, verbatim. -/
def questionPatterns : List String :=
  ["what is", "what are", "what" ++ apos ++ "s", "whats", "how much",
   "how many",
   "who is", "who are", "who won", "who lost", "where is", "when is",
   "why is", "why are", "how is", "how are", "tell me about",
   "what happened", "what" ++ apos ++ "s happening", "any news", "latest on"]

/-- Alternatives of the `hasSpecificEntities` regex. -/
def entityAlternatives : List String :=
  ["bitcoin", "btc", "ethereum", "eth", "tesla", "apple", "microsoft",
   "google", "amazon", "nvidia", "meta", "netflix", "dow", "nasdaq", "s&p",
   "ftse", "nikkei", "dax", "fed", "ecb", "boe", "rbi", "pboc"]

/-- Alternatives of the `hasGeopolitical` regex. -/
def geoAlternatives : List String :=
  ["usa", "america", "china", "russia", "ukraine", "europe", "japan",
   "india", "pakistan", "israel", "palestine", "iran", "north korea",
   "south korea", "taiwan", "hong kong", "singapore", "uk", "germany",
   "france", "italy", "spain", "canada", "australia", "brazil", "mexico"]

/-- Alternatives of the `hasCurrency` regex. -/
def currencyAlternatives : List String :=
  ["usd", "eur", "gbp", "jpy", "cny", "inr", "pkr", "aud", "cad", "chf",
   "nzd", "krw", "sgd", "hkd", "mxn", "brl", "rub", "try", "zar"]

/-- `needsRealTimeSearch(message)` (`ai-chat/index.ts`, lines 46-104):
lower-case and trim the message, then fire when any keyword or question
pattern occurs as a substring, or any entity / geopolitical / currency
alternative occurs as a whole word. -/
def needsRealTimeSearch (message : String) : Bool :=
  let lowerMessage := trimCharsWS (toLowerChars message.toList)
  let hasMarketKeywords :=
    alwaysSearchKeywords.any (fun k => containsChars k.toList lowerMessage)
  let hasQuestionPattern :=
    questionPatterns.any (fun p => containsChars p.toList lowerMessage)
  let hasSpecificEntities :=
    entityAlternatives.any (fun w => containsWord lowerMessage w)
  let hasGeopolitical :=
    geoAlternatives.any (fun w => containsWord lowerMessage w)
  let hasCurrency :=
    currencyAlternatives.any (fun w => containsWord lowerMessage w)
  hasMarketKeywords || hasQuestionPattern || hasSpecificEntities ||
    hasGeopolitical || hasCurrency

/-- The alternatives of the three `skipSearchPatterns` regexes
(`ai-chat/index.ts`, lines 224-228); each regex is anchored `^…$` with the
case-insensitive flag, hence an exact match against these lower-case
strings. -/
def skipSearchPatterns : List String :=
  ["hi", "hello", "hey", "good morning", "good afternoon", "good evening",
   "thanks", "thank you", "ok", "okay", "yes", "no",
   "how are you", "what" ++ apos ++ "s up", "sup"]

/-- `skipSearchPatterns.some(pattern => pattern.test(message.trim()))`:
the trimmed message, lower-cased (the `/i` flag), equals one of the
alternatives. -/
def shouldSkipSearch (message : String) : Bool :=
  skipSearchPatterns.any
    (fun p => toLowerChars (trimCharsWS message.toList) == p.toList)

/-- Line 232 of `ai-chat/index.ts`: the search is performed exactly when
`!shouldSkipSearch && needsRealTimeSearch(message)`. -/
def searchDecision (message : String) : Bool :=
  !shouldSkipSearch message && needsRealTimeSearch message

/-- C7 counterexample: the message `"banana"` matches no greeting pattern,
yet no search is issued for it — the search decision also requires
`needsRealTimeSearch`, which fires on no keyword of `"banana"`.  This
refutes "issues a web search for every other message". -/
theorem C7_searchDecision_counterexample :
    shouldSkipSearch ("banana") = false ∧
      searchDecision ("banana") = false := by
  decide

/-- C7 (amended): the decision skips the search when the trimmed,
lower-cased message matches one of the fixed greeting/acknowledgement
patterns, and for the remaining messages issues a search exactly when the
`needsRealTimeSearch` keyword/question/entity heuristic fires — messages
that are neither greetings nor heuristic triggers are also skipped.
`"hi"` is skipped as a greeting, `"banana"` is skipped for lack of a
trigger, `"bitcoin price today"` is searched. -/
theorem C7_searchDecision_amended (message : String) :
    (searchDecision message = true ↔
      (shouldSkipSearch message = false ∧ needsRealTimeSearch message = true))
    ∧ (shouldSkipSearch message = true ↔
        ∃ p ∈ skipSearchPatterns,
          toLowerChars (trimCharsWS message.toList) = p.toList)
    ∧ searchDecision ("hi") = false
    ∧ searchDecision ("banana") = false
    ∧ searchDecision ("bitcoin price today") = true := by
  refine ⟨?_, ?_, by decide, by decide, by decide⟩
  · simp [searchDecision, Bool.and_eq_true, Bool.not_eq_true']
  · simp [shouldSkipSearch, List.any_eq_true]

/-- C7 witness: the acknowledgement `"ok"` is skipped, via the
greeting-pattern characterisation. -/
theorem C7_searchDecision_witness : shouldSkipSearch ("ok") = true :=
  (C7_searchDecision_amended ("ok")).2.1.mpr ⟨"ok", by decide, by decide⟩

/-! ### Market data with fallbacks (claim C8)

From `src/src/services/enhancedMarketDataService.ts`.  Each network fetch
is modelled as an oracle value `FetchOutcome β`: either the promise
rejected (`Except.error`) or it resolved to a response with an `ok` flag
and a decoded JSON body of the shape the success path reads.  A `try`
block is `tryCatchE`; `throw new Error(…)` is `Except.error`.  The
getters return `Except String _` so that "never rejects" is a theorem
about the code structure, not an artifact of the types.  Timestamps
(`toISOString`, `pubDate`) are modelled as epoch milliseconds;
`parseInt(latest.value)` is modelled by an already-integer body field. -/

/-- A resolved `fetch` response: HTTP `ok` flag plus decoded JSON body. -/
structure HttpResponse (β : Type) where
  ok : Bool
  body : β

/-- Outcome of one provider fetch: rejected, or resolved. -/
def FetchOutcome (β : Type) : Type := Except Unit (HttpResponse β)

/-- `try { body } catch (e) { handler }`. -/
def tryCatchE {β : Type} (body : Except String β)
    (handler : String → Except String β) : Except String β :=
  match body with
  | .ok v => .ok v
  | .error e => handler e

/-- JS `x || d` on an optional number: `undefined`, `null` and `0` fall
through to the default. -/
def jsOrQ (x : Option ℚ) (d : ℚ) : ℚ :=
  match x with
  | none => d
  | some v => if v = 0 then d else v

/-- JS `x || d` on an optional string: missing falls through (the
empty-string falsy case is folded into `none`). -/
def jsOrStr (x : Option String) (d : String) : String :=
  match x with
  | none => d
  | some s => if s = "" then d else s

/-- JS `x || undefined` on an optional string. -/
def jsOrStrOpt (x : Option String) : Option String :=
  match x with
  | none => none
  | some s => if s = "" then none else some s

/-- JS `x || d` on an optional epoch timestamp (date strings are falsy
only when empty, folded into `none`). -/
def jsOrZ (x : Option ℤ) (d : ℤ) : ℤ :=
  match x with
  | none => d
  | some v => v

/-- JS truthiness of a string: only the empty string is falsy. -/
def strTruthy (s : String) : Bool := s != ""

/-- One crypto price entry of the `MarketData` contract. -/
structure CryptoPrice where
  symbol : String
  price : ℚ
  change24h : ℚ
  changePercent24h : ℚ
deriving DecidableEq

/-- The `{ btc, eth }` pair returned by `getCryptoPrices`. -/
structure CryptoPair where
  btc : CryptoPrice
  eth : CryptoPrice
deriving DecidableEq

/-- Gold price entry of the `MarketData` contract. -/
structure GoldPrice where
  price : ℚ
  change24h : ℚ
  changePercent24h : ℚ
deriving DecidableEq

/-- Fear-greed entry of the `MarketData` contract. -/
structure FearGreedIndex where
  value : ℤ
  classification : String
  timestamp : ℤ
deriving DecidableEq

/-- One news item of the `MarketData` contract. -/
structure NewsItem where
  title : String
  summary : String
  url : String
  publishedAt : ℤ
  source : String
  imageUrl : Option String
deriving DecidableEq

/-- The composite `MarketData` record. -/
structure MarketData where
  crypto : CryptoPair
  gold : GoldPrice
  fearGreed : FearGreedIndex
  news : List NewsItem
deriving DecidableEq

/-- Decoded CoinGecko body: `data.bitcoin.usd`,
`data.bitcoin.usd_24h_change`, and the same for ethereum (the change
fields are guarded with `|| 0` in the source, hence optional here). -/
structure CryptoApiBody where
  bitcoinUsd : ℚ
  bitcoinChange : Option ℚ
  ethereumUsd : ℚ
  ethereumChange : Option ℚ

/-- One entry of `data.quotes` in the Tradermade body. -/
structure GoldQuote where
  mid : Option ℚ
  ask : Option ℚ

/-- Decoded Tradermade body: `data.quotes?.[0]`. -/
structure GoldApiBody where
  quotesHead : Option GoldQuote

/-- Decoded metals.live fallback body. -/
structure GoldFallbackBody where
  price : Option ℚ
  change : Option ℚ
  changePercent : Option ℚ

/-- One entry of `data.data` in the alternative.me body;
`parseInt(latest.value)` is modelled by the already-parsed `value`. -/
structure FngEntry where
  value : ℤ
  classification : String
  timestamp : ℤ

/-- Decoded alternative.me body: the `data.data` array. -/
structure FngBody where
  entries : List FngEntry

/-- One raw article of the NewsData.io `results` array; every field the
mapper reads is optional. -/
structure RawArticle where
  title : Option String
  description : Option String
  content : Option String
  link : Option String
  pubDate : Option ℤ
  source_name : Option String
  source_id : Option String
  image_url : Option String

/-- Decoded NewsData.io body: `data.status` and `data.results` (an array
is truthy in JS even when empty, hence `Option`). -/
structure NewsApiBody where
  status : String
  results : Option (List RawArticle)

/-- The hardcoded crypto fallback of `getCryptoPrices` (lines 75-88). -/
def cryptoFallback : CryptoPair :=
  { btc := { symbol := "BTC/USD", price := 43250,
             change24h := 1250, changePercent24h := 2.98 }
    eth := { symbol := "ETH/USD", price := 2650,
             change24h := -45, changePercent24h := -1.67 } }

/-- `getCryptoPrices` (lines 45-90): on a resolved, `ok` response build
the pair from the body; a rejected fetch, a non-`ok` status (the `throw`)
or any other failure lands in the `catch`, which returns the static
fallback. -/
def getCryptoPrices (f : FetchOutcome CryptoApiBody) :
    Except String CryptoPair :=
  tryCatchE
    (match f with
     | .error _ => .error "fetch rejected"
     | .ok response =>
       if !response.ok then .error "Failed to fetch crypto prices"
       else
         .ok { btc := { symbol := "BTC/USD",
                        price := response.body.bitcoinUsd,
                        change24h := jsOrQ response.body.bitcoinChange 0,
                        changePercent24h :=
                          jsOrQ response.body.bitcoinChange 0 }
               eth := { symbol := "ETH/USD",
                        price := response.body.ethereumUsd,
                        change24h := jsOrQ response.body.ethereumChange 0,
                        changePercent24h :=
                          jsOrQ response.body.ethereumChange 0 } })
    (fun _ => .ok cryptoFallback)

/-- The final static gold fallback of `getGoldPrice` (lines 134-138). -/
def goldStaticFallback : GoldPrice :=
  { price := 2050, change24h := 15.5, changePercent24h := 0.76 }

/-- `getGoldPrice` (lines 92-140): primary Tradermade fetch with
`mid || ask || 2050` on the head quote; on any failure the `catch` tries
the metals.live fallback fetch, and failing that returns the static
values. -/
def getGoldPrice (f : FetchOutcome GoldApiBody)
    (f2 : FetchOutcome GoldFallbackBody) : Except String GoldPrice :=
  tryCatchE
    (match f with
     | .error _ => .error "fetch rejected"
     | .ok response =>
       if !response.ok then .error "Failed to fetch gold price from Tradermade"
       else
         match response.body.quotesHead with
         | some goldData =>
           .ok { price := jsOrQ goldData.mid (jsOrQ goldData.ask 2050),
                 change24h := 15.5, changePercent24h := 0.76 }
         | none => .error "Invalid gold data format")
    (fun _ =>
      match f2 with
      | .ok fallbackResponse =>
        if fallbackResponse.ok then
          .ok { price := jsOrQ fallbackResponse.body.price 2050,
                change24h := jsOrQ fallbackResponse.body.change 15.5,
                changePercent24h :=
                  jsOrQ fallbackResponse.body.changePercent 0.76 }
        else .ok goldStaticFallback
      | .error _ => .ok goldStaticFallback)

/-- The fear-greed fallback of `getFearGreedIndex` (lines 161-165), whose
timestamp is `new Date().toISOString()` — the `nowMs` parameter. -/
def fngFallback (nowMs : ℤ) : FearGreedIndex :=
  { value := 65, classification := "Greed", timestamp := nowMs }

/-- `getFearGreedIndex` (lines 142-167): reads `data.data[0]`; an empty
array makes the success path throw (property access on `undefined`),
landing in the `catch` like every other failure. -/
def getFearGreedIndex (f : FetchOutcome FngBody) (nowMs : ℤ) :
    Except String FearGreedIndex :=
  tryCatchE
    (match f with
     | .error _ => .error "fetch rejected"
     | .ok response =>
       if !response.ok then .error "Failed to fetch Fear and Greed Index"
       else
         match response.body.entries.head? with
         | some latest =>
           .ok { value := latest.value,
                 classification := latest.classification,
                 timestamp := latest.timestamp }
         | none => .error "TypeError: reading property of undefined")
    (fun _ => .ok (fngFallback nowMs))

/-- Mapping of one raw article (lines 183-189 of the source), with the
JS `||` default chains. -/
def buildArticle (nowMs : ℤ) (a : RawArticle) : NewsItem :=
  { title := jsOrStr a.title ("Untitled")
    summary := jsOrStr a.description
      (jsOrStr a.content (jsOrStr a.title ("No summary available")))
    url := jsOrStr a.link ("#")
    publishedAt := jsOrZ a.pubDate nowMs
    source := jsOrStr a.source_name (jsOrStr a.source_id ("Unknown Source"))
    imageUrl := jsOrStrOpt a.image_url }

/-- The article filter (lines 190-196): truthy title and summary, neither
equal to `"[Removed]"`, and a title longer than 10 characters. -/
def newsKeep (art : NewsItem) : Bool :=
  strTruthy art.title && art.title != "[Removed]" &&
    strTruthy art.summary && art.summary != "[Removed]" &&
    art.title.length > 10

/-- The hardcoded news fallback of `getFinancialNews` (lines 203-268):
eight items whose publication timestamps step back one hour at a time from
`Date.now()`. -/
def newsStaticFallback (nowMs : ℤ) : List NewsItem :=
  [{ title := "Bitcoin Reaches New Monthly High Amid Institutional Adoption"
     summary := "Bitcoin continues its upward momentum as major institutions increase their cryptocurrency holdings, driving market confidence and pushing prices to new monthly highs."
     url := "#", publishedAt := nowMs, source := "Crypto News Today"
     imageUrl := some "https://images.pexels.com/photos/730547/pexels-photo-730547.jpeg" },
   { title := "Federal Reserve Signals Potential Interest Rate Changes"
     summary := "The Federal Reserve hints at upcoming monetary policy adjustments as inflation data shows mixed signals across different economic sectors."
     url := "#", publishedAt := nowMs - 3600000, source := "Financial Times"
     imageUrl := some "https://images.pexels.com/photos/259027/pexels-photo-259027.jpeg" },
   { title := "Gold Prices Stabilize as Safe Haven Demand Increases"
     summary := "Gold maintains its position as a preferred safe haven asset during periods of market uncertainty and inflation concerns, with prices showing stability."
     url := "#", publishedAt := nowMs - 7200000, source := "Market Watch"
     imageUrl := some "https://images.pexels.com/photos/163032/office-gold-trading-finance-163032.jpeg" },
   { title := "Ethereum Network Upgrade Shows Promising Results"
     summary := "Latest Ethereum improvements focus on scalability and reduced transaction fees, attracting more developers to the platform and boosting ecosystem growth."
     url := "#", publishedAt := nowMs - 10800000, source := "Blockchain Today"
     imageUrl := some "https://images.pexels.com/photos/844124/pexels-photo-844124.jpeg" },
   { title := "Trading Volume Surges Across Major Cryptocurrency Exchanges"
     summary := "Increased retail and institutional trading activity drives record volumes across leading crypto trading platforms, indicating growing market participation."
     url := "#", publishedAt := nowMs - 14400000, source := "Crypto Weekly"
     imageUrl := some "https://images.pexels.com/photos/6801648/pexels-photo-6801648.jpeg" },
   { title := "Central Banks Consider Digital Currency Implementations"
     summary := "Multiple central banks worldwide are accelerating their digital currency research and pilot programs, signaling a shift towards digital monetary systems."
     url := "#", publishedAt := nowMs - 18000000, source := "Reuters"
     imageUrl := some "https://images.pexels.com/photos/259200/pexels-photo-259200.jpeg" },
   { title := "Stock Market Shows Resilience Despite Economic Headwinds"
     summary := "Major stock indices demonstrate strength as investors remain optimistic about corporate earnings and economic recovery prospects."
     url := "#", publishedAt := nowMs - 21600000, source := "Wall Street Journal"
     imageUrl := some "https://images.pexels.com/photos/590041/pexels-photo-590041.jpeg" },
   { title := "Forex Markets React to Global Economic Data"
     summary := "Currency pairs show volatility as traders digest latest economic indicators from major economies, with particular focus on inflation and employment data."
     url := "#", publishedAt := nowMs - 25200000, source := "FX Today"
     imageUrl := some "https://images.pexels.com/photos/210607/pexels-photo-210607.jpeg" }]

/-- `getFinancialNews` (lines 169-270): on `status === 'success'` with a
`results` array, map and filter the articles; any failure (rejected fetch,
non-`ok` status, or the `throw` on an unexpected shape) lands in the
`catch`, which returns the static fallback list. -/
def getFinancialNews (f : FetchOutcome NewsApiBody) (nowMs : ℤ) :
    Except String (List NewsItem) :=
  tryCatchE
    (match f with
     | .error _ => .error "fetch rejected"
     | .ok response =>
       if !response.ok then
         .error "Failed to fetch financial news from NewsData.io"
       else if response.body.status == "success" &&
           response.body.results.isSome then
         .ok (((response.body.results.getD []).map
            (buildArticle nowMs)).filter newsKeep)
       else .error "Invalid response format from NewsData.io")
    (fun _ => .ok (newsStaticFallback nowMs))

/-- The composite built from the all-fallback values. -/
def staticMarketData (nowMs : ℤ) : MarketData :=
  { crypto := cryptoFallback, gold := goldStaticFallback,
    fearGreed := fngFallback nowMs, news := newsStaticFallback nowMs }

/-- `getAllMarketData` (lines 272-291): `Promise.all` over the four
getters (joined positionally; the getters are independent, so the
concurrent join is modelled by reading all four outcomes), merged into the
composite; the surrounding `catch` rethrows. -/
def getAllMarketData (c : FetchOutcome CryptoApiBody)
    (g : FetchOutcome GoldApiBody) (g2 : FetchOutcome GoldFallbackBody)
    (fg : FetchOutcome FngBody) (n : FetchOutcome NewsApiBody)
    (nowMs : ℤ) : Except String MarketData :=
  tryCatchE
    (match getCryptoPrices c, getGoldPrice g g2,
        getFearGreedIndex fg nowMs, getFinancialNews n nowMs with
     | .ok crypto, .ok gold, .ok fearGreed, .ok news =>
       .ok { crypto := crypto, gold := gold, fearGreed := fearGreed,
             news := news }
     | .error e, _, _, _ => .error e
     | _, .error e, _, _ => .error e
     | _, _, .error e, _ => .error e
     | _, _, _, .error e => .error e)
    (fun e => .error e)

/-- A fetch that failed for the purpose of the claim: the promise rejected
or the response carried a non-success HTTP status. -/
def fetchFailed {β : Type} : FetchOutcome β → Prop
  | .error _ => True
  | .ok r => r.ok = false

/-- The getter resolved (did not reject). -/
def isOkE {β : Type} : Except String β → Bool
  | .ok _ => true
  | .error _ => false

/-- A resolved `Except` yields a value. -/
lemma exists_ok_of_isOkE {β : Type} (x : Except String β)
    (h : isOkE x = true) : ∃ v, x = .ok v := by
  cases x with
  | ok v => exact ⟨v, rfl⟩
  | error e => simp [isOkE] at h

/-- `getCryptoPrices` never rejects, and resolves to the static fallback
whenever its fetch failed. -/
lemma getCryptoPrices_total (f : FetchOutcome CryptoApiBody) :
    isOkE (getCryptoPrices f) = true ∧
      (fetchFailed f → getCryptoPrices f = .ok cryptoFallback) := by
  cases f with
  | error e => exact ⟨rfl, fun _ => rfl⟩
  | ok r =>
    cases h : r.ok with
    | false =>
      exact ⟨by simp [getCryptoPrices, tryCatchE, h, isOkE],
        fun _ => by simp [getCryptoPrices, tryCatchE, h]⟩
    | true =>
      exact ⟨by simp [getCryptoPrices, tryCatchE, h, isOkE],
        fun hf => by simp [fetchFailed, h] at hf⟩

/-- `getGoldPrice` never rejects, and resolves to the static fallback
whenever both its fetches failed. -/
lemma getGoldPrice_total (f : FetchOutcome GoldApiBody)
    (f2 : FetchOutcome GoldFallbackBody) :
    isOkE (getGoldPrice f f2) = true ∧
      (fetchFailed f → fetchFailed f2 →
        getGoldPrice f f2 = .ok goldStaticFallback) := by
  cases f with
  | error e =>
    cases f2 with
    | error e2 => exact ⟨rfl, fun _ _ => rfl⟩
    | ok r2 =>
      cases h2 : r2.ok with
      | false =>
        exact ⟨by simp [getGoldPrice, tryCatchE, h2, isOkE],
          fun _ _ => by simp [getGoldPrice, tryCatchE, h2]⟩
      | true =>
        exact ⟨by simp [getGoldPrice, tryCatchE, h2, isOkE],
          fun _ hf2 => by simp [fetchFailed, h2] at hf2⟩
  | ok r =>
    cases h : r.ok with
    | false =>
      cases f2 with
      | error e2 =>
        exact ⟨by simp [getGoldPrice, tryCatchE, h, isOkE],
          fun _ _ => by simp [getGoldPrice, tryCatchE, h]⟩
      | ok r2 =>
        cases h2 : r2.ok with
        | false =>
          exact ⟨by simp [getGoldPrice, tryCatchE, h, h2, isOkE],
            fun _ _ => by simp [getGoldPrice, tryCatchE, h, h2]⟩
        | true =>
          exact ⟨by simp [getGoldPrice, tryCatchE, h, h2, isOkE],
            fun _ hf2 => by simp [fetchFailed, h2] at hf2⟩
    | true =>
      refine ⟨?_, fun hf _ => by simp [fetchFailed, h] at hf⟩
      cases hq : r.body.quotesHead with
      | some q => simp [getGoldPrice, tryCatchE, h, hq, isOkE]
      | none =>
        cases f2 with
        | error e2 => simp [getGoldPrice, tryCatchE, h, hq, isOkE]
        | ok r2 =>
          cases h2 : r2.ok with
          | false => simp [getGoldPrice, tryCatchE, h, hq, h2, isOkE]
          | true => simp [getGoldPrice, tryCatchE, h, hq, h2, isOkE]

/-- `getFearGreedIndex` never rejects, and resolves to the static fallback
whenever its fetch failed. -/
lemma getFearGreedIndex_total (f : FetchOutcome FngBody) (nowMs : ℤ) :
    isOkE (getFearGreedIndex f nowMs) = true ∧
      (fetchFailed f → getFearGreedIndex f nowMs = .ok (fngFallback nowMs))
    := by
  cases f with
  | error e => exact ⟨rfl, fun _ => rfl⟩
  | ok r =>
    cases h : r.ok with
    | false =>
      exact ⟨by simp [getFearGreedIndex, tryCatchE, h, isOkE],
        fun _ => by simp [getFearGreedIndex, tryCatchE, h]⟩
    | true =>
      refine ⟨?_, fun hf => by simp [fetchFailed, h] at hf⟩
      cases he : r.body.entries.head? with
      | some latest => simp [getFearGreedIndex, tryCatchE, h, he, isOkE]
      | none => simp [getFearGreedIndex, tryCatchE, h, he, isOkE]

/-- `getFinancialNews` never rejects, and resolves to the static fallback
whenever its fetch failed. -/
lemma getFinancialNews_total (f : FetchOutcome NewsApiBody) (nowMs : ℤ) :
    isOkE (getFinancialNews f nowMs) = true ∧
      (fetchFailed f →
        getFinancialNews f nowMs = .ok (newsStaticFallback nowMs)) := by
  cases f with
  | error e => exact ⟨rfl, fun _ => rfl⟩
  | ok r =>
    cases h : r.ok with
    | false =>
      exact ⟨by simp [getFinancialNews, tryCatchE, h, isOkE],
        fun _ => by simp [getFinancialNews, tryCatchE, h]⟩
    | true =>
      refine ⟨?_, fun hf => by simp [fetchFailed, h] at hf⟩
      by_cases hs : (r.body.status == "success" && r.body.results.isSome)
          = true
      · simp [getFinancialNews, tryCatchE, h, hs, isOkE]
      · simp [getFinancialNews, tryCatchE, h, hs, isOkE]

/-- C8: the aggregate market-data operation always resolves — for every
combination of fetch outcomes it returns a value, never an error — and if
every provider fetch failed (rejected, or non-success HTTP status, for
both gold sources) the result is exactly the composite of the four
hardcoded static fallbacks. -/
theorem C8_getAllMarketData (c : FetchOutcome CryptoApiBody)
    (g : FetchOutcome GoldApiBody) (g2 : FetchOutcome GoldFallbackBody)
    (fg : FetchOutcome FngBody) (n : FetchOutcome NewsApiBody)
    (nowMs : ℤ) :
    (∃ md, getAllMarketData c g g2 fg n nowMs = .ok md)
    ∧ (fetchFailed c → fetchFailed g → fetchFailed g2 → fetchFailed fg →
        fetchFailed n →
        getAllMarketData c g g2 fg n nowMs = .ok (staticMarketData nowMs))
    := by
  obtain ⟨ho1, hf1⟩ := getCryptoPrices_total c
  obtain ⟨ho2, hf2⟩ := getGoldPrice_total g g2
  obtain ⟨ho3, hf3⟩ := getFearGreedIndex_total fg nowMs
  obtain ⟨ho4, hf4⟩ := getFinancialNews_total n nowMs
  obtain ⟨v1, h1⟩ := exists_ok_of_isOkE _ ho1
  obtain ⟨v2, h2⟩ := exists_ok_of_isOkE _ ho2
  obtain ⟨v3, h3⟩ := exists_ok_of_isOkE _ ho3
  obtain ⟨v4, h4⟩ := exists_ok_of_isOkE _ ho4
  constructor
  · refine ⟨{ crypto := v1, gold := v2, fearGreed := v3, news := v4 }, ?_⟩
    simp [getAllMarketData, tryCatchE, h1, h2, h3, h4]
  · intro k1 k2 k3 k4 k5
    simp [getAllMarketData, tryCatchE, hf1 k1, hf2 k2 k3, hf3 k4, hf4 k5,
      staticMarketData]

/-- C8 witness: with every fetch rejected, the aggregate resolves to the
static composite. -/
theorem C8_getAllMarketData_witness :
    getAllMarketData (.error ()) (.error ()) (.error ()) (.error ())
        (.error ()) 0 = .ok (staticMarketData 0) :=
  (C8_getAllMarketData (.error ()) (.error ()) (.error ()) (.error ())
      (.error ()) 0).2 trivial trivial trivial trivial trivial

/-! ### Image-extraction numeric normaliser (claim C9)

`parseNumber` from `src/unnamed/part_001` (the same private method at
lines 199-218 and 1016-1035): `null`/`undefined`/`''` return `undefined`;
otherwise trim, strip commas, strip `[$€£¥+\s]`, convert a parenthesised
value to a leading minus, and `parseFloat`, with `NaN` mapped back to
`undefined`.  `parseFloat` is modelled on its decimal grammar (optional
sign, digits, fraction, optional exponent, longest valid prefix, `NaN`
for no numeric prefix); the JS `Infinity` literal has no counterpart in
`ℚ` and is not modelled (it cannot survive the symbol stripping in any
claim input). -/

/-- Characters removed by the `replace(/,/g, '')` step. -/
def noCommaChar (c : Char) : Bool := !(c == ',')

/-- The character class `[$€£¥+\s]` of the second `replace`. -/
def isSymChar (c : Char) : Bool :=
  c == '$' || c == '€' || c == '£' || c == '¥' || c == '+' || isWSChar c

/-- Characters surviving the symbol-stripping step. -/
def notSymChar (c : Char) : Bool := !isSymChar c

/-- Characters surviving the `replace(/[()]/g, '')` step. -/
def noParenChar (c : Char) : Bool := !(c == '(' || c == ')')

/-- Decimal digits to a natural number. -/
def digitsVal (l : List Char) : ℕ :=
  l.foldl (fun acc c => acc * 10 + (c.toNat - 48)) 0

/-- Split off a maximal run of decimal digits. -/
def spanDigits (l : List Char) : List Char × List Char :=
  (l.takeWhile Char.isDigit, l.dropWhile Char.isDigit)

/-- `10^e` over `ℚ` for a signed exponent. -/
def qpow10 (e : ℤ) : ℚ :=
  if 0 ≤ e then (10 : ℚ) ^ e.toNat else 1 / (10 : ℚ) ^ (-e).toNat

/-- The optional exponent suffix of a float literal: signed digits after
`e`/`E`; a malformed exponent contributes 0 (the mantissa prefix alone is
the parsed value). -/
def expVal (t : List Char) : ℤ :=
  let st : ℤ × List Char :=
    match t with
    | c :: r => if c == '-' then (-1, r) else if c == '+' then (1, r) else (1, t)
    | [] => (1, t)
  let ds := (spanDigits st.2).1
  if ds.isEmpty then 0 else st.1 * (digitsVal ds : ℤ)

/-- JS `parseFloat` on the decimal grammar: leading whitespace, optional
sign, integer digits, optional fraction, optional exponent; `none` when no
digit is found (`NaN`); trailing junk is ignored. -/
def jsParseFloat (l0 : List Char) : Option ℚ :=
  let l := l0.dropWhile isWSChar
  let sg : ℚ × List Char :=
    match l with
    | c :: r => if c == '-' then (-1, r) else if c == '+' then (1, r) else (1, l)
    | [] => (1, l)
  let ipr := spanDigits sg.2
  let fpr : List Char × List Char :=
    match ipr.2 with
    | c :: r => if c == '.' then spanDigits r else ([], ipr.2)
    | [] => ([], ipr.2)
  if ipr.1.isEmpty && fpr.1.isEmpty then none
  else
    let mant : ℚ :=
      (digitsVal ipr.1 : ℚ) + (digitsVal fpr.1 : ℚ) / (10 : ℚ) ^ fpr.1.length
    let e : ℤ :=
      match fpr.2 with
      | c :: r => if c == 'e' || c == 'E' then expVal r else 0
      | [] => 0
    some (sg.1 * (mant * qpow10 e))

/-- The cleanup pipeline of `parseNumber`: `toString().trim()`, then
`replace(/,/g, '')`, then `replace(/[$€£¥+\s]/g, '')`. -/
def cleanedChars (l : List Char) : List Char :=
  ((trimCharsWS l).filter noCommaChar).filter notSymChar

/-- `parseNumber` on the character level: cleanup, the
parenthesised-negative rewrite (`'-' +` the string with parentheses
removed, when both a `(` and a `)` survive cleanup), then `parseFloat`. -/
def parseNumberChars (l : List Char) : Option ℚ :=
  let t3 := cleanedChars l
  let t4 :=
    if t3.contains '(' && t3.contains ')' then '-' :: t3.filter noParenChar
    else t3
  jsParseFloat t4

/-- `parseNumber(value)`: `null`/`undefined`/`''` give `undefined`; any
other value is parsed from its string rendering. -/
def parseNumber (v : Option String) : Option ℚ :=
  match v with
  | none => none
  | some s => if s = "" then none else parseNumberChars s.toList

/-- Dropping a prefix of characters the filter rejects anyway does not
change the filtered list. -/
lemma filter_dropWhile_of_imp (p q : Char → Bool)
    (h : ∀ c, q c = true → p c = false) :
    ∀ l : List Char, (l.dropWhile q).filter p = l.filter p := by
  intro l
  induction l with
  | nil => rfl
  | cons c t ih =>
    cases hq : q c with
    | false => simp [List.dropWhile_cons, hq]
    | true => simp [List.dropWhile_cons, hq, List.filter_cons, h c hq, ih]

/-- Trimming whitespace is absorbed by any filter that rejects
whitespace. -/
lemma filter_trim_of_ws (p : Char → Bool)
    (h : ∀ c, isWSChar c = true → p c = false) (l : List Char) :
    (trimCharsWS l).filter p = l.filter p := by
  unfold trimCharsWS
  rw [List.filter_reverse, filter_dropWhile_of_imp _ _ h,
    List.filter_reverse, List.reverse_reverse,
    filter_dropWhile_of_imp _ _ h]

/-- A filter is idempotent. -/
lemma filter_idem (p : Char → Bool) (l : List Char) :
    (l.filter p).filter p = l.filter p := by
  induction l with
  | nil => rfl
  | cons c t ih =>
    cases hc : p c with
    | false => simp [List.filter_cons, hc, ih]
    | true => simp [List.filter_cons, hc, ih]

/-- The cleanup pipeline with the trim step absorbed: stripping commas and
symbols already removes every whitespace character. -/
lemma cleanedChars_absorb (l : List Char) :
    cleanedChars l = (l.filter noCommaChar).filter notSymChar := by
  unfold cleanedChars
  rw [List.filter_filter, List.filter_filter]
  refine filter_trim_of_ws _ (fun c hc => ?_) l
  simp [noCommaChar, notSymChar, isSymChar, hc]

/-- Cleanup is invariant under pre-stripping the commas. -/
lemma cleanedChars_filter_comma (l : List Char) :
    cleanedChars (l.filter noCommaChar) = cleanedChars l := by
  rw [cleanedChars_absorb, cleanedChars_absorb, filter_idem]

/-- Cleanup is invariant under a leading currency symbol. -/
lemma cleanedChars_dollar (l : List Char) :
    cleanedChars ('$' :: l) = cleanedChars l := by
  rw [cleanedChars_absorb, cleanedChars_absorb]
  simp [List.filter_cons, noCommaChar, notSymChar, isSymChar]

/-- Stripping the thousands separators of the input by hand does not
change the parsed number. -/
lemma parseNumberChars_filter_comma (l : List Char) :
    parseNumberChars (l.filter noCommaChar) = parseNumberChars l := by
  simp only [parseNumberChars]
  rw [cleanedChars_filter_comma]

/-- A leading dollar sign does not change the parsed number. -/
lemma parseNumberChars_dollar (l : List Char) :
    parseNumberChars ('$' :: l) = parseNumberChars l := by
  simp only [parseNumberChars]
  rw [cleanedChars_dollar]

/-- C9: the numeric normaliser strips thousands separators and currency
symbols (formally: comma-stripping and a leading `$` never change its
result) and converts parenthesised notation to a negative number,
returning `none` rather than failing on unparseable input (it is a total
function into `Option ℚ`); `"3,401.188"` maps to 3401.188, `"(12.50)"` to
−12.50, and `"$1,200"` to 1200. -/
theorem C9_parseNumber :
    parseNumber (some ("3,401.188")) = some (3401188 / 1000)
    ∧ parseNumber (some ("(12.50)")) = some (-(1250 / 100))
    ∧ parseNumber (some ("$1,200")) = some 1200
    ∧ (∀ l : List Char,
        parseNumberChars (l.filter noCommaChar) = parseNumberChars l)
    ∧ (∀ l : List Char, parseNumberChars ('$' :: l) = parseNumberChars l)
    := by
  refine ⟨?_, ?_, ?_, parseNumberChars_filter_comma, parseNumberChars_dollar⟩
  · have hc : cleanedChars ['3', ',', '4', '0', '1', '.', '1', '8', '8'] =
        ['3', '4', '0', '1', '.', '1', '8', '8'] := by decide
    simp +decide [parseNumber, parseNumberChars, hc, jsParseFloat,
      spanDigits, digitsVal, expVal, qpow10, isWSChar]
    try norm_num
  · have hc : cleanedChars ['(', '1', '2', '.', '5', '0', ')'] =
        ['(', '1', '2', '.', '5', '0', ')'] := by decide
    simp +decide [parseNumber, parseNumberChars, hc, jsParseFloat,
      spanDigits, digitsVal, expVal, qpow10, isWSChar, noParenChar]
    try norm_num
  · have hc : cleanedChars ['$', '1', ',', '2', '0', '0'] =
        ['1', '2', '0', '0'] := by decide
    simp +decide [parseNumber, parseNumberChars, hc, jsParseFloat,
      spanDigits, digitsVal, expVal, qpow10, isWSChar]
    try norm_num

/-! ### Crypto extraction field mirroring (claim C10)

`validateAndCleanCryptoData` from `src/unnamed/part_001`, lines 1438-1465
(the later of the two versions in the source; the earlier one at lines
526-551 differs only in not setting `position`/`reason`).  The
`parseDateTime` method is abstracted as the `parseDT` parameter: it
normalises date strings and no claim in scope depends on it. -/

/-- ASCII upper-casing of one character (JS `toUpperCase` restricted to
ASCII). -/
def upperChar (c : Char) : Char :=
  if c.isLower then Char.ofNat (c.toNat - 32) else c

/-- JS `toUpperCase` on ASCII strings. -/
def toUpperStr (s : String) : String := String.mk (s.toList.map upperChar)

/-- JS `toLowerCase` on ASCII strings. -/
def toLowerStr (s : String) : String := String.mk (s.toList.map lowerChar)

/-- JS `trim` at the string level. -/
def trimStr (s : String) : String := String.mk (trimCharsWS s.toList)

/-- JS `String.includes` at the string level. -/
def strContains (hay sub : String) : Bool :=
  containsChars sub.toList hay.toList

/-- `reasonStr.charAt(0).toUpperCase() + reasonStr.slice(1).toLowerCase()`. -/
def capitalizeJS (s : String) : String :=
  match s.toList with
  | [] => ""
  | c :: t => String.mk (upperChar c :: t.map lowerChar)

/-- `normalizePosition` (lines 965-986): map recognised variants onto the
database-accepted `Closed`/`Open`, otherwise `undefined`. -/
def normalizePosition (v : Option String) : Option String :=
  match v with
  | none => none
  | some s =>
    if s = "" then none
    else
      let positionStr := toLowerStr (trimStr s)
      if strContains positionStr ("closed") || positionStr == "all closed"
          || positionStr == "close" then some ("Closed")
      else if strContains positionStr ("open") || positionStr == "opened"
        then some ("Open")
      else if positionStr == "open" then some ("Open")
      else if positionStr == "closed" then some ("Closed")
      else none

/-- `normalizeReason` (lines 988-1014): map recognised variants onto
`TP`/`SL`/`Early Close`, defaulting to `Other`. -/
def normalizeReason (v : Option String) : Option String :=
  match v with
  | none => none
  | some s =>
    if s = "" then none
    else
      let reasonStr := toLowerStr (trimStr s)
      if strContains reasonStr ("tp") || strContains reasonStr ("take profit")
          || strContains reasonStr ("takeprofit") then some ("TP")
      else if strContains reasonStr ("sl")
          || strContains reasonStr ("stop loss")
          || strContains reasonStr ("stoploss") then some ("SL")
      else if strContains reasonStr ("early")
          || strContains reasonStr ("manual")
          || strContains reasonStr ("close") then some ("Early Close")
      else if ["TP", "SL", "Early Close", "Other"].contains
          (toUpperStr reasonStr) then some (capitalizeJS reasonStr)
      else some ("Other")

/-- The raw JSON object handed to `validateAndCleanCryptoData`; numeric
and datetime values are carried as their string renderings (the method
calls `toString()` before parsing), missing/null fields as `none`. -/
structure RawCryptoData where
  futuresSymbol : Option String
  marginMode : Option String
  avgClosePrice : Option String
  direction : Option String
  marginAdjustmentHistory : Option String
  closeTime : Option String
  closingQuantity : Option String
  realizedPnl : Option String
  openTime : Option String
  avgEntryPrice : Option String
  status : Option String
  reason : Option String

/-- The `ExtractedTradeData` record of `src/types`: Forex-style common
fields plus the crypto-specific fields. -/
structure ExtractedTradeData where
  symbol : Option String
  type : Option String
  volumeLot : Option ℚ
  openPrice : Option ℚ
  closePrice : Option ℚ
  tp : Option ℚ
  sl : Option ℚ
  position : Option String
  openTime : Option String
  closeTime : Option String
  reason : Option String
  pnlUsd : Option ℚ
  futuresSymbol : Option String
  marginMode : Option String
  direction : Option String
  marginAdjustmentHistory : Option String
  avgClosePrice : Option ℚ
  closingQuantity : Option ℚ
  realizedPnl : Option ℚ
  avgEntryPrice : Option ℚ
deriving DecidableEq

/-- `validateAndCleanCryptoData(data)`: crypto fields cleaned in place and
mirrored into the Forex-style common fields; `tp`/`sl` are never assigned
by this method (they stay `undefined`). -/
def validateAndCleanCryptoData (parseDT : Option String → Option String)
    (data : RawCryptoData) : ExtractedTradeData :=
  { futuresSymbol := jsOrStrOpt data.futuresSymbol
    marginMode := jsOrStrOpt data.marginMode
    avgClosePrice := parseNumber data.avgClosePrice
    direction := jsOrStrOpt data.direction
    marginAdjustmentHistory := jsOrStrOpt data.marginAdjustmentHistory
    closeTime := parseDT data.closeTime
    closingQuantity := parseNumber data.closingQuantity
    realizedPnl := parseNumber data.realizedPnl
    openTime := parseDT data.openTime
    avgEntryPrice := parseNumber data.avgEntryPrice
    symbol := jsOrStrOpt data.futuresSymbol
    type :=
      if data.direction = some ("Long") then some ("Buy")
      else if data.direction = some ("Short") then some ("Sell")
      else none
    openPrice := parseNumber data.avgEntryPrice
    closePrice := parseNumber data.avgClosePrice
    pnlUsd := parseNumber data.realizedPnl
    volumeLot := parseNumber data.closingQuantity
    position := normalizePosition (some (jsOrStr data.status ("Closed")))
    reason := normalizeReason data.reason
    tp := none
    sl := none }

/-- C10: the crypto-specific fields are mirrored into the common
Forex-style fields — `symbol` equals `futuresSymbol`, `type` is `Buy`
exactly when the raw direction is `Long` and `Sell` exactly when it is
`Short` (absent otherwise), and `openPrice`/`closePrice`/`pnlUsd`/
`volumeLot` equal the parsed `avgEntryPrice`/`avgClosePrice`/
`realizedPnl`/`closingQuantity` respectively. -/
theorem C10_cryptoFieldMirror (parseDT : Option String → Option String)
    (data : RawCryptoData) :
    (validateAndCleanCryptoData parseDT data).symbol =
        (validateAndCleanCryptoData parseDT data).futuresSymbol
    ∧ ((validateAndCleanCryptoData parseDT data).type = some ("Buy") ↔
        data.direction = some ("Long"))
    ∧ ((validateAndCleanCryptoData parseDT data).type = some ("Sell") ↔
        data.direction = some ("Short"))
    ∧ (data.direction ≠ some ("Long") → data.direction ≠ some ("Short") →
        (validateAndCleanCryptoData parseDT data).type = none)
    ∧ (validateAndCleanCryptoData parseDT data).openPrice =
        parseNumber data.avgEntryPrice
    ∧ (validateAndCleanCryptoData parseDT data).openPrice =
        (validateAndCleanCryptoData parseDT data).avgEntryPrice
    ∧ (validateAndCleanCryptoData parseDT data).closePrice =
        (validateAndCleanCryptoData parseDT data).avgClosePrice
    ∧ (validateAndCleanCryptoData parseDT data).pnlUsd =
        (validateAndCleanCryptoData parseDT data).realizedPnl
    ∧ (validateAndCleanCryptoData parseDT data).volumeLot =
        (validateAndCleanCryptoData parseDT data).closingQuantity := by
  refine ⟨rfl, ?_, ?_, ?_, rfl, rfl, rfl, rfl, rfl⟩
  · by_cases hL : data.direction = some ("Long")
    · simp [validateAndCleanCryptoData, hL]
    · by_cases hS : data.direction = some ("Short")
      · simp [validateAndCleanCryptoData, hL, hS]
      · simp [validateAndCleanCryptoData, hL, hS]
  · by_cases hL : data.direction = some ("Long")
    · simp [validateAndCleanCryptoData, hL]
    · by_cases hS : data.direction = some ("Short")
      · simp [validateAndCleanCryptoData, hL, hS]
      · simp [validateAndCleanCryptoData, hL, hS]
  · intro hL hS
    simp [validateAndCleanCryptoData, hL, hS]

/-- A raw record with an unrecognised direction, for the witness. -/
def rawHoldExample : RawCryptoData :=
  { futuresSymbol := some ("BTCUSDT Perpetual"), marginMode := none,
    avgClosePrice := none, direction := some ("Hold"),
    marginAdjustmentHistory := none, closeTime := none,
    closingQuantity := none, realizedPnl := none, openTime := none,
    avgEntryPrice := none, status := none, reason := none }

/-- C10 witness: for a direction that is neither `Long` nor `Short`, the
mirrored `type` field is absent. -/
theorem C10_cryptoFieldMirror_witness :
    (validateAndCleanCryptoData (fun x => x) rawHoldExample).type = none :=
  (C10_cryptoFieldMirror (fun x => x) rawHoldExample).2.2.2.1 (by decide)
    (by decide)

end Flips
